import Mathlib

/-!
Verification of the safe-dataframe core: a shallow embedding of
`safe_dataframe/data.py` (the `Columns` schema container and the `BaseData`
typed-table wrapper) and `safe_dataframe/transforms.py` (the `Pipeline`
transform family), together with theorems settling the specified properties.

Tables are modelled exactly: an ordered list of column labels and a list of
rows, each row a list of cells aligned with the labels.  A cell is either a
missing value (`null`) or a typed scalar.  Validation schemas are lists of
per-column specifications (name, dtype, nullability), as produced by the
external schema engine from the column declarations.
-/

/-- Cell of a table: a missing value or a typed scalar. -/
inductive Cell where
  | null : Cell
  | str : String → Cell
  | int : Int → Cell
deriving DecidableEq, Repr

/-- Declared data type of a schema column. -/
inductive DType where
  | str : DType
  | int : DType
deriving DecidableEq, Repr

/-- Whether a cell is a missing value (`pd.isna`). -/
def Cell.isNull : Cell → Bool
  | .null => true
  | _ => false

/-- Whether a non-missing cell carries the declared data type. -/
def Cell.hasType : Cell → DType → Bool
  | .str _, .str => true
  | .int _, .int => true
  | _, _ => false

/-- Single column specification of a `pandera` validation schema:
physical name, data type and nullability. -/
structure ColSpec where
  name : String
  dtype : DType
  nullable : Bool
deriving DecidableEq, Repr

/-- A pandas DataFrame: ordered column labels and rows of cells, each row
aligned positionally with the labels. -/
structure DataFrame where
  cols : List String
  rows : List (List Cell)
deriving DecidableEq, Repr

/-- Row count, `len(df.index)`. -/
def DataFrame.nrows (df : DataFrame) : Nat := df.rows.length

/-- Emptiness check `df.empty`: true when either axis has length zero. -/
def DataFrame.isEmpty (df : DataFrame) : Bool := df.rows.isEmpty || df.cols.isEmpty

/-- Whether a column label is present, `name in df.columns`. -/
def DataFrame.hasCol (df : DataFrame) (name : String) : Bool := df.cols.contains name

/-- Position of a column label among the labels (first occurrence). -/
def DataFrame.colPos (df : DataFrame) (name : String) : Nat := df.cols.findIdx (· = name)

/-- Cells of column `name` top to bottom, `df[name]`.  Meaningful when
`hasCol df name`; rows are padded with `null` out of range. -/
def DataFrame.colCells (df : DataFrame) (name : String) : List Cell :=
  df.rows.map (fun r => r.getD (df.colPos name) Cell.null)

/-- Column selection `df[names]`: the named columns, in the order given.
Fails (pandas `KeyError`) when some requested label is absent. -/
def DataFrame.select (df : DataFrame) (names : List String) : Option DataFrame :=
  if names.all (fun n => df.hasCol n) then
    some { cols := names,
           rows := df.rows.map (fun r => names.map (fun n => r.getD (df.colPos n) Cell.null)) }
  else none

/-!
Transforms (`safe_dataframe/transforms.py`).  A transform is a function from
tables to tables; `Pipeline.__call__` applies its transforms in order and
breaks out of the loop as soon as an intermediate result is empty.
-/

/-- Body of `Pipeline.__call__`: apply each transform in order to the running
table, stopping (`break`) right after a step whose result is empty. -/
def Pipeline.run : List (DataFrame → DataFrame) → DataFrame → DataFrame
  | [], data => data
  | f :: rest, data =>
    let d := f data
    if d.isEmpty then d else Pipeline.run rest d

/-- Pipeline object: the tuple of transforms captured by `Pipeline.__init__`. -/
structure PipelineObj where
  transforms : List (DataFrame → DataFrame)

/-- Method `Pipeline.__call__` on a pipeline object. -/
def PipelineObj.call (P : PipelineObj) (data : DataFrame) : DataFrame :=
  Pipeline.run P.transforms data

/-- Whether running the given transforms from `data` reaches a step whose
result is empty (so the loop in `Pipeline.__call__` breaks inside the list). -/
def Pipeline.stopsEarly : List (DataFrame → DataFrame) → DataFrame → Bool
  | [], _ => false
  | f :: rest, data =>
    let d := f data
    d.isEmpty || Pipeline.stopsEarly rest d

/-!
Columns (`safe_dataframe/data.py`).  A concrete `Columns` subclass is a
pydantic model whose fields map logical names to physical column-name
strings, plus its `get_data_schema` code, which builds the validation schema
from the current field values.  An instance carries the ordered field
assignment; pydantic guarantees field names are unique, which theorems take
as a `Nodup` hypothesis.
-/

/-- Instance of a concrete `Columns` subclass: ordered (field name, physical
name) pairs and the schema-construction code of the class, a pure function of
the field values. -/
structure Columns where
  fields : List (String × String)
  get_data_schema : List (String × String) → List ColSpec

/-- Cached property `data_schema`: the schema computed once from the current
field values (caching is observationally the identity since the computation
is pure and the instance immutable). -/
def Columns.data_schema (c : Columns) : List ColSpec :=
  c.get_data_schema c.fields

/-- Method `dump_column_names`: the field-name to physical-name mapping, in
declaration order, excluding the derived schema. -/
def Columns.dump_column_names (c : Columns) : List (String × String) :=
  c.fields

/-- Pydantic `model_validate`: build a fresh instance of the same class from
a mapping of field values.  A field absent from the mapping keeps a default;
every call in this development passes a complete mapping, so the fallback
value is never consulted. -/
def Columns.model_validate (c : Columns) (attrs : List (String × String)) : Columns :=
  { c with fields := c.fields.map (fun p => (p.1, (attrs.lookup p.1).getD p.2)) }

/-- Method `set_prefix`: dump the column names, prepend the prefix to every
value, and construct a new instance from the result. -/
def Columns.set_prefix (c : Columns) (p : String) : Columns :=
  Columns.model_validate c ((Columns.dump_column_names c).map (fun q => (q.1, p ++ q.2)))

/-- Method `columns`: the logical field names, in declaration order. -/
def Columns.columns (c : Columns) : List String :=
  (Columns.dump_column_names c).map Prod.fst

/-- Method `get_names`: the physical column-name values, in declaration
order. -/
def Columns.get_names (c : Columns) : List String :=
  (Columns.dump_column_names c).map Prod.snd

/-- Whether one schema column is satisfied by a table: the column exists and
every cell is either an allowed missing value or of the declared type. -/
def DataFrame.colSatisfies (df : DataFrame) (s : ColSpec) : Bool :=
  df.hasCol s.name &&
    (df.colCells s.name).all (fun cell => if cell.isNull then s.nullable else cell.hasType s.dtype)

/-- Method `validate_data`: run the schema over a table; true exactly when
every declared column is present, well-typed and respects nullability
(extra columns are not checked). -/
def Columns.validate_data (c : Columns) (df : DataFrame) : Bool :=
  (Columns.data_schema c).all (fun s => df.colSatisfies s)

/-!
BaseData (`safe_dataframe/data.py`): the typed-table wrapper.  A concrete
subclass fixes a class name and the `_column_class` default `Columns`
instance.  Construction validates unless `skip_check`, in which case it emits
a warning naming the concrete class.  The embedding returns
`Except`: a `SchemaValidationError` string on failure, otherwise the
constructed object together with the warning text, if one was emitted.
-/

/-- Error raised by the validation engine on a schema violation. -/
def schemaValidationError : String := "SchemaValidationError"

/-- Concrete `BaseData` subclass: its name and its `_column_class` default
`Columns` instance. -/
structure DataClass where
  className : String
  columnClass : Columns

/-- Typed table: the concrete class, the owning `Columns` instance and the
wrapped table. -/
structure BaseData where
  cls : DataClass
  columns : Columns
  data : DataFrame

/-- Constructor `BaseData.__init__`: default the columns, validate unless
`skip_check`, in which case emit the warning naming the concrete subclass. -/
def BaseData.init (cls : DataClass) (data : DataFrame) (columns : Option Columns)
    (skip_check : Bool) : Except String (BaseData × Option String) :=
  let cols := columns.getD cls.columnClass
  if !skip_check then
    if Columns.validate_data cols data then Except.ok (⟨cls, cols, data⟩, none)
    else Except.error schemaValidationError
  else Except.ok (⟨cls, cols, data⟩, some ("Data check skipped " ++ cls.className ++ "."))

/-- Classmethod `from_dataframe`: apply the optional transform, default the
columns, then construct through `BaseData.init`, forwarding `skip_check`. -/
def BaseData.from_dataframe (cls : DataClass) (data : DataFrame) (columns : Option Columns)
    (transform : Option (DataFrame → DataFrame)) (skip_check : Bool) :
    Except String (BaseData × Option String) :=
  let data2 := match transform with
    | some tf => tf data
    | none => data
  let cols := match columns with
    | some c => c
    | none => cls.columnClass
  BaseData.init cls data2 (some cols) skip_check

/-- Method `new_data`: rebuild from a different table with the same
`Columns` instance (validation runs again through the constructor). -/
def BaseData.new_data (d : BaseData) (t : DataFrame) : Except String (BaseData × Option String) :=
  BaseData.from_dataframe d.cls t (some d.columns) none false

/-- Method `transform`: rebuild from the own table with the transform applied
first, keeping the same `Columns` instance. -/
def BaseData.transform (d : BaseData) (tf : DataFrame → DataFrame) :
    Except String (BaseData × Option String) :=
  BaseData.from_dataframe d.cls d.data (some d.columns) (some tf) false

/-- Method `get_values_presence`: select the named columns, count non-missing
cells per column and divide by the row count.  Fails (`none`) on a missing
column (pandas `KeyError`) or on a zero row count, where the exact quotient
is undefined (division by zero). -/
def BaseData.get_values_presence (d : BaseData) (names : List String) :
    Option (List (String × Rat)) :=
  match d.data.select names with
  | none => none
  | some sub =>
    if d.data.nrows = 0 then none
    else some (sub.cols.map (fun n =>
      (n, (((sub.colCells n).countP (fun c => !c.isNull) : Nat) : Rat) / (d.data.nrows : Rat))))

/-- Method `truncate_columns`: keep exactly the columns named by the
`Columns` instance, in declared order, and rebuild through `new_data`. -/
def BaseData.truncate_columns (d : BaseData) : Except String (BaseData × Option String) :=
  match d.data.select (Columns.get_names d.columns) with
  | none => Except.error "KeyError"
  | some sub => BaseData.new_data d sub

/-!
Concrete fixtures, mirroring the development's own tests: a `TestColumns`
class with fields `column_a -> "Name A"` (string, non-nullable) and
`column_b -> "Name B"` (integer, non-nullable), a `TestData` class over it,
and a few small tables.
-/

/-- Instance of the test `Columns` subclass from the test suite; the schema
code reads the current field values, as `get_data_schema` does in the class
body. -/
def testColumns : Columns :=
  { fields := [("column_a", "Name A"), ("column_b", "Name B")],
    get_data_schema := fun fs =>
      [ { name := (fs.lookup "column_a").getD "Name A", dtype := DType.str, nullable := false },
        { name := (fs.lookup "column_b").getD "Name B", dtype := DType.int, nullable := false } ] }

/-- Test `BaseData` subclass over `testColumns`. -/
def testClass : DataClass :=
  { className := "TestData", columnClass := testColumns }

/-- Valid three-row table over the test schema. -/
def dfABC : DataFrame :=
  { cols := ["Name A", "Name B"],
    rows := [[Cell.str "a", Cell.int 1], [Cell.str "b", Cell.int 2], [Cell.str "c", Cell.int 3]] }

/-- Zero-row table with the test columns (empty in the pandas sense). -/
def dfEmptyAB : DataFrame :=
  { cols := ["Name A", "Name B"], rows := [] }

/-- Table missing the declared column `Name B`. -/
def dfMissingB : DataFrame :=
  { cols := ["Name A"], rows := [[Cell.str "a"]] }

/-- Three-row table with one missing value in `Name B`. -/
def dfOneNA : DataFrame :=
  { cols := ["Name A", "Name B"],
    rows := [[Cell.str "a", Cell.int 1], [Cell.str "b", Cell.null], [Cell.str "c", Cell.int 3]] }

/-- Transform dropping every row (its result is always empty). -/
def dropAllRows : DataFrame → DataFrame := fun df => { cols := df.cols, rows := [] }

/-- Transform ignoring its input and producing the non-empty `dfABC`. -/
def constABC : DataFrame → DataFrame := fun _ => dfABC

/-!
Pipeline lemmas: once the loop in `Pipeline.__call__` reaches an empty
intermediate result, any transforms appended after that point are dead code,
and the returned table is that empty intermediate.
-/

/-- Transforms appended after an early stop never change the result. -/
theorem Pipeline.run_append_of_stopsEarly
    (ts ts2 : List (DataFrame → DataFrame)) (t : DataFrame)
    (h : Pipeline.stopsEarly ts t = true) :
    Pipeline.run (ts ++ ts2) t = Pipeline.run ts t := by
  induction ts generalizing t with
  | nil => simp [Pipeline.stopsEarly] at h
  | cons f rest ih =>
    simp only [Pipeline.stopsEarly, Bool.or_eq_true] at h
    simp only [List.cons_append, Pipeline.run]
    rcases h with h | h
    · simp [h]
    · by_cases he : (f t).isEmpty = true
      · simp [he]
      · simp only [he, if_false]
        exact ih (f t) h

/-- After an early stop the pipeline's result is an empty table. -/
theorem Pipeline.run_isEmpty_of_stopsEarly
    (ts : List (DataFrame → DataFrame)) (t : DataFrame)
    (h : Pipeline.stopsEarly ts t = true) :
    (Pipeline.run ts t).isEmpty = true := by
  induction ts generalizing t with
  | nil => simp [Pipeline.stopsEarly] at h
  | cons f rest ih =>
    simp only [Pipeline.stopsEarly, Bool.or_eq_true] at h
    simp only [Pipeline.run]
    rcases h with h | h
    · simp [h]
    · by_cases he : (f t).isEmpty = true
      · simp [he]
      · simp only [he, if_false]
        exact ih (f t) h

/-- Claim C2: if transform `A` maps the input to an empty table, `Pipeline(A, B)`
returns exactly that output of `A`, independently of `B` (so `B` is never
applied); in general a pipeline stops at the first step whose result is
empty, returns that empty result, and transforms after the stopping point
never run. -/
theorem pipeline_short_circuit
    (A B : DataFrame → DataFrame) (t : DataFrame)
    (h : (A t).isEmpty = true) :
    Pipeline.run [A, B] t = A t ∧
    (∀ B2 : DataFrame → DataFrame, Pipeline.run [A, B2] t = A t) ∧
    (∀ (ts ts2 : List (DataFrame → DataFrame)) (u : DataFrame),
      Pipeline.stopsEarly ts u = true →
      Pipeline.run (ts ++ ts2) u = Pipeline.run ts u ∧
      (Pipeline.run ts u).isEmpty = true) := by
  refine ⟨by simp [Pipeline.run, h], fun B2 => by simp [Pipeline.run, h], ?_⟩
  intro ts ts2 u hu
  exact ⟨Pipeline.run_append_of_stopsEarly ts ts2 u hu,
         Pipeline.run_isEmpty_of_stopsEarly ts u hu⟩

/-- Witness for `pipeline_short_circuit` at a concrete pipeline and table. -/
theorem pipeline_short_circuit_witness :
    (dropAllRows dfABC).isEmpty = true ∧
    Pipeline.run [dropAllRows, constABC] dfABC = dropAllRows dfABC :=
  ⟨by decide, (pipeline_short_circuit dropAllRows constABC dfABC (by decide)).1⟩

/-- Claim C4 counterexample: on an empty input table a one-step pipeline does
invoke its step — with a step producing a non-empty table, the pipeline's
output differs from the empty input, refuting "returns t itself without
invoking any of the pipeline's steps". -/
theorem pipeline_empty_input_cex :
    DataFrame.isEmpty dfEmptyAB = true ∧
    Pipeline.run [constABC] dfEmptyAB ≠ dfEmptyAB := by
  decide

/-- Claim C4, amended: a Pipeline with no transforms returns the empty input table
itself; a non-empty Pipeline invokes its first transform on the empty input
and, when that first result is empty, returns it without invoking the
remaining transforms. -/
theorem pipeline_empty_input_amended
    (t : DataFrame) (_h : t.isEmpty = true) :
    Pipeline.run [] t = t ∧
    (∀ (f : DataFrame → DataFrame) (ts ts2 : List (DataFrame → DataFrame)),
      (f t).isEmpty = true →
      Pipeline.run (f :: ts) t = f t ∧
      Pipeline.run (f :: ts2) t = Pipeline.run (f :: ts) t) := by
  refine ⟨rfl, ?_⟩
  intro f ts ts2 hf
  simp [Pipeline.run, hf]

/-- Witness for `pipeline_empty_input_amended` at a concrete empty table. -/
theorem pipeline_empty_input_amended_witness :
    DataFrame.isEmpty dfEmptyAB = true ∧
    Pipeline.run [dropAllRows, constABC] dfEmptyAB = dropAllRows dfEmptyAB :=
  ⟨by decide,
   ((pipeline_empty_input_amended dfEmptyAB (by decide)).2
      dropAllRows [constABC] [constABC] (by decide)).1⟩

/-- Claim C10: a Pipeline constructed with zero transforms is the identity
transform; `Pipeline.__call__` is a pure function of the captured transform
tuple and the input table, so the transform list is never altered. -/
theorem pipeline_zero_transforms_identity (t : DataFrame) :
    PipelineObj.call { transforms := [] } t = t ∧
    (∀ P : PipelineObj, PipelineObj.call P t = Pipeline.run P.transforms t) :=
  ⟨rfl, fun _ => rfl⟩

/-- Lookup in an association list with distinct keys finds each entry's own
value.  Pydantic guarantees distinct field names, so this applies to every
field mapping handled by `Columns`. -/
theorem lookup_of_nodup_keys (l : List (String × String))
    (h : (l.map Prod.fst).Nodup) :
    ∀ q ∈ l, l.lookup q.1 = some q.2 := by
  induction l with
  | nil => intro q hq; simp at hq
  | cons r rest ih =>
    intro q hq
    obtain ⟨k, v⟩ := r
    simp only [List.map_cons, List.nodup_cons] at h
    rcases List.mem_cons.mp hq with rfl | hq2
    · simp [List.lookup]
    · have hne : (q.1 == k) = false := by
        refine beq_eq_false_iff_ne.mpr ?_
        intro he
        exact h.1 (he ▸ List.mem_map_of_mem Prod.fst hq2)
      simp only [List.lookup, hne]
      exact ih h.2 q hq2

/-- Claim C3: method `set_prefix` returns an instance of the same concrete class whose
physical names are exactly the prefix prepended to the original values,
with the logical field names unchanged.  The `Nodup` hypothesis is
pydantic's guarantee that a model's field names are distinct. -/
theorem set_prefix_spec (c : Columns) (p : String)
    (h : (c.fields.map Prod.fst).Nodup) :
    ( Columns.set_prefix c p).fields = c.fields.map (fun q => (q.1, p ++ q.2)) ∧
    Columns.columns ( Columns.set_prefix c p) = Columns.columns c ∧
    ( Columns.set_prefix c p).get_data_schema = c.get_data_schema := by
  have hkeys : ((c.fields.map (fun r => (r.1, p ++ r.2))).map Prod.fst).Nodup := by
    rw [List.map_map]
    exact h
  have hf : ( Columns.set_prefix c p).fields = c.fields.map (fun q => (q.1, p ++ q.2)) := by
    unfold Columns.set_prefix Columns.model_validate Columns.dump_column_names
    refine List.map_congr_left ?_
    intro q hq
    have hmem : (q.1, p ++ q.2) ∈ c.fields.map (fun r => (r.1, p ++ r.2)) :=
      List.mem_map_of_mem _ hq
    rw [lookup_of_nodup_keys _ hkeys _ hmem]
    rfl
  refine ⟨hf, ?_, rfl⟩
  unfold Columns.columns Columns.dump_column_names
  rw [hf, List.map_map]
  rfl

/-- Witness for `set_prefix_spec` on the test columns with prefix `L_`. -/
theorem set_prefix_spec_witness :
    (testColumns.fields.map Prod.fst).Nodup ∧
    ( Columns.set_prefix testColumns "L_").fields =
      testColumns.fields.map (fun q => (q.1, "L_" ++ q.2)) :=
  ⟨by decide, (set_prefix_spec testColumns "L_" (by decide)).1⟩

/-- Claim C8: rebuilding a `Columns` instance via `model_validate` from its own
`dump_column_names` output restores the very same field assignment, hence
identical physical column names. -/
theorem dump_round_trip (c : Columns)
    (h : (c.fields.map Prod.fst).Nodup) :
    ( Columns.model_validate c ( Columns.dump_column_names c)).fields = c.fields ∧
    Columns.get_names ( Columns.model_validate c ( Columns.dump_column_names c)) =
      Columns.get_names c := by
  have hf : ( Columns.model_validate c ( Columns.dump_column_names c)).fields = c.fields := by
    unfold Columns.model_validate Columns.dump_column_names
    have hpt : ∀ q ∈ c.fields,
        (q.1, (c.fields.lookup q.1).getD q.2) = q := by
      intro q hq
      rw [lookup_of_nodup_keys c.fields h q hq]
      rfl
    calc c.fields.map (fun q => (q.1, (c.fields.lookup q.1).getD q.2))
        = c.fields.map (fun q => q) := List.map_congr_left hpt
      _ = c.fields := by simp
  have hf2 : ( Columns.model_validate c c.fields).fields = c.fields := hf
  refine ⟨hf, ?_⟩
  unfold Columns.get_names Columns.dump_column_names
  rw [hf2]

/-- Witness for `dump_round_trip` on the test columns. -/
theorem dump_round_trip_witness :
    (testColumns.fields.map Prod.fst).Nodup ∧
    Columns.get_names ( Columns.model_validate testColumns
      ( Columns.dump_column_names testColumns)) = ["Name A", "Name B"] := by
  refine ⟨by decide, ?_⟩
  rw [(dump_round_trip testColumns (by decide)).2]
  rfl

/-- Selection succeeds when every requested label is present, and yields the
requested labels with the rows projected to them. -/
theorem DataFrame.select_some (df : DataFrame) (names : List String)
    (h : ∀ n ∈ names, df.hasCol n = true) :
    df.select names =
      some { cols := names
             rows := df.rows.map (fun r => names.map (fun n => r.getD (df.colPos n) Cell.null)) } := by
  unfold DataFrame.select
  rw [if_pos (List.all_eq_true.mpr h)]

/-- In a selection, each requested column carries exactly the cells it had in
the original table. -/
theorem DataFrame.select_colCells (df : DataFrame) (names : List String)
    (n : String) (hn : n ∈ names) :
    DataFrame.colCells { cols := names
                         rows := df.rows.map
                           (fun r => names.map (fun m => r.getD (df.colPos m) Cell.null)) } n
      = df.colCells n := by
  unfold DataFrame.colCells DataFrame.colPos
  rw [List.map_map]
  apply List.map_congr_left
  intro r _
  have hj : names.findIdx (fun m => m = n) < names.length := by
    refine List.findIdx_lt_length.mpr ⟨n, hn, ?_⟩
    simp
  simp only [Function.comp]
  rw [List.getD_eq_getElem?_getD, List.getElem?_map, List.getElem?_eq_getElem hj]
  have hidx : names[names.findIdx (fun m => m = n)] = n := by
    have hpred := @List.findIdx_getElem _ (fun m => m = n) names hj
    exact of_decide_eq_true hpred
  simp [hidx]

/-- Claim C1: when the table misses a column declared through the schema, or
violates its type or nullability constraints, construction without
`skip_check` raises `SchemaValidationError`; construction of the same table
with `skip_check` succeeds, skipping validation, and emits the non-fatal
warning naming the concrete subclass. -/
theorem init_validation (cls : DataClass) (data : DataFrame) (columns : Option Columns)
    (h : ∃ s ∈ Columns.data_schema (columns.getD cls.columnClass),
      data.colSatisfies s = false) :
    BaseData.init cls data columns false = Except.error schemaValidationError ∧
    BaseData.init cls data columns true =
      Except.ok (⟨cls, columns.getD cls.columnClass, data⟩,
        some ("Data check skipped " ++ cls.className ++ ".")) := by
  have hv : Columns.validate_data (columns.getD cls.columnClass) data = false := by
    rcases h with ⟨s, hs, hfail⟩
    refine Bool.eq_false_iff.mpr ?_
    intro hall
    have hsat := List.all_eq_true.mp hall s hs
    rw [hfail] at hsat
    exact Bool.false_ne_true hsat
  constructor
  · unfold BaseData.init
    simp [hv]
  · unfold BaseData.init
    simp

/-- Witness for `init_validation`: the test table missing `Name B`. -/
theorem init_validation_witness :
    (∃ s ∈ Columns.data_schema ((none : Option Columns).getD testClass.columnClass),
      dfMissingB.colSatisfies s = false) ∧
    BaseData.init testClass dfMissingB none false = Except.error schemaValidationError ∧
    BaseData.init testClass dfMissingB none true =
      Except.ok (⟨testClass, (none : Option Columns).getD testClass.columnClass, dfMissingB⟩,
        some ("Data check skipped " ++ testClass.className ++ ".")) :=
  ⟨by decide, init_validation testClass dfMissingB none (by decide)⟩

/-- Claim C9: methods `new_data` (and `transform`, after applying the transform) rebuilds
through the validating constructor: it raises `SchemaValidationError` exactly
when the new table violates the schema, and on success the returned object
carries the very same `Columns` value, with no warning emitted. -/
theorem new_data_revalidates (d : BaseData) (t : DataFrame) (tf : DataFrame → DataFrame) :
    ( Columns.validate_data d.columns t = false →
      BaseData.new_data d t = Except.error schemaValidationError) ∧
    ( Columns.validate_data d.columns t = true →
      BaseData.new_data d t = Except.ok (⟨d.cls, d.columns, t⟩, none)) ∧
    ( Columns.validate_data d.columns (tf d.data) = false →
      BaseData.transform d tf = Except.error schemaValidationError) ∧
    ( Columns.validate_data d.columns (tf d.data) = true →
      BaseData.transform d tf = Except.ok (⟨d.cls, d.columns, tf d.data⟩, none)) := by
  unfold BaseData.new_data BaseData.transform BaseData.from_dataframe BaseData.init
  refine ⟨?_, ?_, ?_, ?_⟩ <;> intro h <;> simp [h]

/-- Witness for `new_data_revalidates`: rebuilding a valid test table from an
invalid one fails, from a valid one succeeds with the same columns. -/
theorem new_data_revalidates_witness :
    Columns.validate_data testColumns dfMissingB = false ∧
    BaseData.new_data ⟨testClass, testColumns, dfABC⟩ dfMissingB =
      Except.error schemaValidationError ∧
    Columns.validate_data testColumns dfABC = true ∧
    BaseData.new_data ⟨testClass, testColumns, dfABC⟩ dfABC =
      Except.ok (⟨testClass, testColumns, dfABC⟩, none) :=
  ⟨by decide,
   (new_data_revalidates ⟨testClass, testColumns, dfABC⟩ dfMissingB id).1 (by decide),
   by decide,
   (new_data_revalidates ⟨testClass, testColumns, dfABC⟩ dfABC id).2.1 (by decide)⟩

/-- Claim C5: on a table with at least one row, `get_values_presence` returns, for
each requested column, the number of rows holding a non-missing value in that
column divided by the row count; on the test table with one missing value out
of three rows in `Name B`, the fraction is `2/3`. -/
theorem presence_fractions (d : BaseData) (names : List String)
    (h1 : 0 < d.data.nrows)
    (h2 : ∀ n ∈ names, d.data.hasCol n = true) :
    BaseData.get_values_presence d names =
      some (names.map (fun n =>
        (n, ((d.data.rows.countP
                (fun r => !(r.getD (d.data.colPos n) Cell.null).isNull) : Nat) : Rat)
            / (d.data.nrows : Rat)))) ∧
    BaseData.get_values_presence ⟨testClass, testColumns, dfOneNA⟩ ["Name B"] =
      some [("Name B", (2 : Rat) / 3)] := by
  have hgen : ∀ (e : BaseData) (ns : List String), 0 < e.data.nrows →
      (∀ n ∈ ns, e.data.hasCol n = true) →
      BaseData.get_values_presence e ns =
        some (ns.map (fun n =>
          (n, ((e.data.rows.countP
                  (fun r => !(r.getD (e.data.colPos n) Cell.null).isNull) : Nat) : Rat)
              / (e.data.nrows : Rat)))) := by
    intro e ns k1 k2
    unfold BaseData.get_values_presence
    rw [DataFrame.select_some e.data ns k2]
    simp only [if_neg (Nat.pos_iff_ne_zero.mp k1)]
    congr 1
    apply List.map_congr_left
    intro n hn
    rw [DataFrame.select_colCells e.data ns n hn]
    unfold DataFrame.colCells
    rw [List.countP_map]
    rfl
  refine ⟨hgen d names h1 h2, ?_⟩
  rw [hgen ⟨testClass, testColumns, dfOneNA⟩ ["Name B"] (by decide) (by decide)]
  have hcount : List.countP
      (fun r => !(r.getD ((⟨testClass, testColumns, dfOneNA⟩ : BaseData).data.colPos "Name B")
        Cell.null).isNull)
      (⟨testClass, testColumns, dfOneNA⟩ : BaseData).data.rows = 2 := by decide
  have hnr : DataFrame.nrows (⟨testClass, testColumns, dfOneNA⟩ : BaseData).data = 3 := by decide
  simp only [List.map_cons, List.map_nil, hcount, hnr]
  norm_num

/-- Witness for `presence_fractions` at the test table with one missing
value. -/
theorem presence_fractions_witness :
    0 < DataFrame.nrows dfOneNA ∧
    BaseData.get_values_presence ⟨testClass, testColumns, dfOneNA⟩ ["Name B"] =
      some [("Name B", (2 : Rat) / 3)] :=
  ⟨by decide,
   (presence_fractions ⟨testClass, testColumns, dfOneNA⟩ ["Name B"]
      (by decide) (by decide)).2⟩

/-- Claim C6: on a zero-row table `get_values_presence` fails for every list of
columns — the count is divided by a zero row count, and the exact quotient is
undefined. -/
theorem presence_zero_rows (d : BaseData) (names : List String)
    (h : d.data.nrows = 0) :
    BaseData.get_values_presence d names = none := by
  unfold BaseData.get_values_presence
  cases hsel : d.data.select names with
  | none => simp [hsel]
  | some sub => simp [hsel, h]

/-- Witness for `presence_zero_rows` at the zero-row test table. -/
theorem presence_zero_rows_witness :
    DataFrame.nrows dfEmptyAB = 0 ∧
    BaseData.get_values_presence ⟨testClass, testColumns, dfEmptyAB⟩ ["Name A"] = none :=
  ⟨by decide,
   presence_zero_rows ⟨testClass, testColumns, dfEmptyAB⟩ ["Name A"] (by decide)⟩

/-- Two-row table valid for the test schema with an extra undeclared
column. -/
def dfExtra : DataFrame :=
  { cols := ["Name A", "Name B", "Extra"],
    rows := [[Cell.str "a", Cell.int 1, Cell.int 7], [Cell.str "b", Cell.int 2, Cell.int 8]] }

/-- Table containing every declared column (plus an extra one) but holding a
string where the schema declares an integer in `Name B`. -/
def dfBadB : DataFrame :=
  { cols := ["Name A", "Name B", "Extra"],
    rows := [[Cell.str "x", Cell.str "y", Cell.int 9]] }

/-- Validation survives restriction to the declared physical names, provided
the schema only mentions those names (the stated contract of
`get_data_schema`): each checked column keeps its exact cells. -/
theorem validate_select (c : Columns) (df : DataFrame)
    (hs : ∀ s ∈ Columns.data_schema c, s.name ∈ Columns.get_names c)
    (hv : Columns.validate_data c df = true) :
    Columns.validate_data c
      { cols := Columns.get_names c
        rows := df.rows.map (fun r => ( Columns.get_names c).map
          (fun m => r.getD (df.colPos m) Cell.null)) } = true := by
  unfold Columns.validate_data at hv ⊢
  rw [List.all_eq_true] at hv ⊢
  intro s hsmem
  have hvs := hv s hsmem
  have hname := hs s hsmem
  unfold DataFrame.colSatisfies at hvs ⊢
  rw [Bool.and_eq_true] at hvs ⊢
  refine ⟨?_, ?_⟩
  · exact List.elem_eq_true_of_mem hname
  · rw [DataFrame.select_colCells df ( Columns.get_names c) s.name hname]
    exact hvs.2

/-- Claim C7 counterexample: a TypedTable reachable through the public API
(constructed with `skip_check`) whose table contains every declared column
plus an extra one, yet `truncate_columns` raises `SchemaValidationError`
rather than returning the truncated TypedTable, because `new_data`
re-validates and `Name B` holds a string. -/
theorem truncate_columns_cex :
    BaseData.init testClass dfBadB none true =
      Except.ok (⟨testClass, testColumns, dfBadB⟩,
        some ("Data check skipped " ++ testClass.className ++ ".")) ∧
    ( Columns.get_names testColumns).all (fun n => dfBadB.hasCol n) = true ∧
    BaseData.truncate_columns ⟨testClass, testColumns, dfBadB⟩ =
      Except.error schemaValidationError :=
  ⟨rfl, by decide, rfl⟩

/-- Claim C7, amended: for a TypedTable whose table contains all declared columns
(plus possibly extra ones) and moreover still satisfies the schema — as any
table accepted by construction without `skip_check` does — `truncate_columns`
returns a new TypedTable over the same `Columns` whose table has exactly the
declared physical names, in declared order, with the original cells in every
declared column; extra columns are dropped.  The first hypothesis is the
stated contract that the schema is built from the declared field values. -/
theorem truncate_columns_spec (d : BaseData)
    (hs : ∀ s ∈ Columns.data_schema d.columns, s.name ∈ Columns.get_names d.columns)
    (hp : ∀ n ∈ Columns.get_names d.columns, d.data.hasCol n = true)
    (hv : Columns.validate_data d.columns d.data = true) :
    ∃ d2 : BaseData, BaseData.truncate_columns d = Except.ok (d2, none) ∧
      d2.cls = d.cls ∧ d2.columns = d.columns ∧
      d2.data.cols = Columns.get_names d.columns ∧
      (∀ n ∈ Columns.get_names d.columns, d2.data.colCells n = d.data.colCells n) := by
  unfold BaseData.truncate_columns
  rw [DataFrame.select_some d.data _ hp]
  unfold BaseData.new_data BaseData.from_dataframe BaseData.init
  have hvs := validate_select d.columns d.data hs hv
  refine ⟨⟨d.cls, d.columns,
    { cols := Columns.get_names d.columns
      rows := d.data.rows.map (fun r => ( Columns.get_names d.columns).map
        (fun m => r.getD (d.data.colPos m) Cell.null)) }⟩, ?_, rfl, rfl, rfl, ?_⟩
  · simp only [List.getD_eq_getElem?_getD] at hvs
    simp [hvs]
  · intro n hn
    exact DataFrame.select_colCells d.data _ n hn

/-- Witness for `truncate_columns_spec`: truncating the valid test table with
an extra column. -/
theorem truncate_columns_spec_witness :
    (∀ s ∈ Columns.data_schema testColumns, s.name ∈ Columns.get_names testColumns) ∧
    (∀ n ∈ Columns.get_names testColumns, dfExtra.hasCol n = true) ∧
    Columns.validate_data testColumns dfExtra = true ∧
    (∃ d2 : BaseData,
      BaseData.truncate_columns ⟨testClass, testColumns, dfExtra⟩ = Except.ok (d2, none) ∧
      d2.cls = testClass ∧ d2.columns = testColumns ∧
      d2.data.cols = Columns.get_names testColumns ∧
      (∀ n ∈ Columns.get_names testColumns, d2.data.colCells n = dfExtra.colCells n)) :=
  ⟨by decide, by decide, by decide,
   truncate_columns_spec ⟨testClass, testColumns, dfExtra⟩ (by decide) (by decide) (by decide)⟩
